import Mathlib

/-!
Verification of the PersonalFinanceTracker repository: a single-table
SQLite store of spending transactions with a desktop entry form
(finance_tracker_GUI.py) and a read-only Flask query API
(finance_tracker_api.py).  The store is embedded shallowly: a list of
typed rows plus the AUTOINCREMENT counter; each Python function that
touches the database becomes a Lean function on that state.  Amounts are
modelled as rationals (the REAL column restricted to finite decimal
values); date strings are kept as opaque text exactly as the schema
stores them.
-/

namespace FinanceTracker

/-- Transaction record: one row of the transactions table
(id INTEGER PRIMARY KEY AUTOINCREMENT, date TEXT NOT NULL,
category TEXT NOT NULL, amount REAL NOT NULL, description TEXT). -/
structure Txn where
  id : Nat
  date : String
  category : String
  amount : ℚ
  descr : String
deriving DecidableEq, Repr

/-- Store state: the rows of the transactions table in rowid
(insertion) order, plus the next AUTOINCREMENT id to assign. -/
structure Store where
  rows : List Txn
  seq : Nat
deriving DecidableEq, Repr

/-- Embeds init_db (finance_tracker_GUI.py): DROP TABLE IF EXISTS
transactions followed by CREATE TABLE — a destructive reset to an empty
table whatever the prior state; dropping the table also resets the
AUTOINCREMENT sequence, so ids restart at 1. -/
def init_db (_ : Store) : Store := ⟨[], 1⟩

/-- Embeds the SELECT * FROM transactions query used by
view_transactions and the /transactions endpoint: all rows in the
store's natural (rowid) order. -/
def listTransactions (s : Store) : List Txn := s.rows

/-- Embeds INSERT INTO transactions (date, category, amount, description)
VALUES (?, ?, ?, ?): appends one row with the store-assigned id. -/
def insertTxn (date category : String) (amount : ℚ) (descr : String) (s : Store) : Store :=
  ⟨s.rows ++ [⟨s.seq, date, category, amount, descr⟩], s.seq + 1⟩

/-- Pattern of validate_date (finance_tracker_GUI.py): four ASCII
digits, a dash, two digits, a dash, two digits. -/
def isDatePattern : List Char → Bool
  | [y1, y2, y3, y4, h1, m1, m2, h2, d1, d2] =>
      y1.isDigit && y2.isDigit && y3.isDigit && y4.isDigit && h1 = '-' &&
      m1.isDigit && m2.isDigit && h2 = '-' && d1.isDigit && d2.isDigit
  | _ => false

/-- Embeds validate_date: Python re.match of the anchored pattern
\d4-\d2-\d2 against the whole string.  Python's dollar anchor also
matches just before one trailing newline, so a pattern match followed by
a single final newline is accepted too.  Digits are modelled as ASCII
digits. -/
def validate_date (s : String) : Bool :=
  isDatePattern s.data ||
    ((s.data.getLast? == some '\n') && isDatePattern s.data.dropLast)

/-- Whitespace accepted by Python float() around a numeric literal. -/
def isPySpace (c : Char) : Bool :=
  c = ' ' || c = '\t' || c = '\n' || c = '\r' || c = '\x0b' || c = '\x0c'

/-- Numeric value of a list of ASCII digit characters. -/
def digitsVal (ds : List Char) : Nat :=
  ds.foldl (fun a c => 10 * a + (c.toNat - 48)) 0

/-- Unsigned part of a Python float literal: digits with an optional
fractional part (at least one digit overall) and an optional decimal
exponent. -/
def parseUnsigned (cs : List Char) : Option ℚ :=
  let ip := cs.takeWhile Char.isDigit
  let r1 := cs.dropWhile Char.isDigit
  let fr :=
    match r1 with
    | '.' :: rest => (rest.takeWhile Char.isDigit, rest.dropWhile Char.isDigit)
    | _ => ([], r1)
  let fp := fr.1
  let r2 := fr.2
  if ip.isEmpty && fp.isEmpty then none
  else
    let mant : ℚ := (digitsVal ip : ℚ) + (digitsVal fp : ℚ) / ((10 : ℚ) ^ fp.length)
    match r2 with
    | [] => some mant
    | e :: rest =>
      if e = 'e' || e = 'E' then
        let sr :=
          match rest with
          | '+' :: t => (true, t)
          | '-' :: t => (false, t)
          | _ => (true, rest)
        let ed := sr.2.takeWhile Char.isDigit
        if ed.isEmpty || !(sr.2.dropWhile Char.isDigit).isEmpty then none
        else if sr.1 then some (mant * (10 : ℚ) ^ digitsVal ed)
        else some (mant / (10 : ℚ) ^ digitsVal ed)
      else none

/-- Embeds Python float(s) on finite decimal literals: optional
surrounding whitespace, optional sign, digits with optional fraction and
exponent; none when the string does not parse (ValueError).  Infinity,
NaN and underscore separators are outside the model. -/
def pyFloat (s : String) : Option ℚ :=
  let cs := ((s.data.dropWhile isPySpace).reverse.dropWhile isPySpace).reverse
  match cs with
  | '+' :: rest => parseUnsigned rest
  | '-' :: rest => (parseUnsigned rest).map Neg.neg
  | _ => parseUnsigned cs

/-- Embeds validate_amount (finance_tracker_GUI.py): float(amount) > 0,
with a ValueError (parse failure) giving false. -/
def validate_amount (s : String) : Bool :=
  match pyFloat s with
  | some q => decide (0 < q)
  | none => false

/-- Outcome reported by add_transaction: which user-facing message was
printed. -/
inductive AddResult where
  | invalidDate
  | invalidAmount
  | added
deriving DecidableEq, Repr

/-- Embeds add_transaction (finance_tracker_GUI.py): validate the date,
then the amount, aborting with a message and no write when either check
fails; otherwise insert one row whose amount is float(amount). -/
def add_transaction (date category amount descr : String) (s : Store) :
    Store × AddResult :=
  if !validate_date date then (s, .invalidDate)
  else if !validate_amount amount then (s, .invalidAmount)
  else (insertTxn date category ((pyFloat amount).getD 0) descr s, .added)

/-- One data row of an uploaded CSV file after the pandas read: the
values it holds under the four required column names (meaningful only
when those columns are present in the header; the import aborts before
looking at any row otherwise).  Values of extra columns are never read
by the source, so they are not modelled. -/
structure CsvRow where
  date : String
  category : String
  amount : ℚ
  descr : String
deriving DecidableEq, Repr

/-- An uploaded CSV file: its header (column names, any order, possibly
with extra columns) and its data rows. -/
structure Csv where
  header : List String
  rows : List CsvRow
deriving Repr

/-- Required columns checked by upload_csv (finance_tracker_GUI.py). -/
def requiredColumns : List String := ["date", "category", "amount", "description"]

/-- Column check of upload_csv: all(col in df.columns for col in
required_columns) — membership only, so column order is irrelevant and
extra columns are ignored. -/
def hasRequiredColumns (header : List String) : Bool :=
  requiredColumns.all (fun c => header.contains c)

/-- Outcome reported by upload_csv: which messagebox the source shows
(Invalid CSV, Failed to upload CSV, or CSV file uploaded
successfully). -/
inductive CsvResult where
  | missingCols
  | insertError
  | success
deriving DecidableEq, Repr

/-- Row of the transactions table produced by inserting one CSV data
row under a given id. -/
def rowTxn (idv : Nat) (r : CsvRow) : Txn :=
  ⟨idv, r.date, r.category, r.amount, r.descr⟩

/-- The uncommitted inserts of the upload_csv loop: one INSERT per data
row in file order, inside the connection's single open transaction.
The parameter ok models whether the database accepts the individual
INSERT (e.g. a NOT NULL violation raises); the first refused row raises
out of the loop, so the function yields none and nothing is ever
committed. -/
def insertAll : List CsvRow → (CsvRow → Bool) → Nat → Option (List Txn)
  | [], _, _ => some []
  | r :: rs, ok, n =>
      if ok r then (insertAll rs ok (n + 1)).map (fun ts => rowTxn n r :: ts)
      else none

/-- Rows produced when every insert of the loop succeeds, with ids
assigned consecutively from the store's sequence counter. -/
def txnsFrom : List CsvRow → Nat → List Txn
  | [], _ => []
  | r :: rs, n => rowTxn n r :: txnsFrom rs (n + 1)

/-- Embeds upload_csv (finance_tracker_GUI.py): reject the whole file
before any write when a required column is missing from the header;
otherwise run one INSERT per data row with no per-row validation and
commit once after the loop.  An insert failure raises into the except
handler, so conn.commit() never runs and the open transaction is rolled
back: the store is unchanged. -/
def upload_csv (csv : Csv) (ok : CsvRow → Bool) (s : Store) : Store × CsvResult :=
  if !hasRequiredColumns csv.header then (s, .missingCols)
  else
    match insertAll csv.rows ok s.seq with
    | none => (s, .insertError)
    | some ts => (⟨s.rows ++ ts, s.seq + csv.rows.length⟩, .success)

/-- Truthiness of an optional Flask query parameter: absent (None) and
the empty string are falsy, any other string is truthy. -/
def pyTruthy : Option String → Bool
  | none => false
  | some v => !(v == "")

/-- HTTP response of a query endpoint: a JSON array of rows with status
200, or an error object with status 400. -/
inductive Resp where
  | ok (body : List Txn)
  | err (status : Nat) (msg : String)
deriving DecidableEq, Repr

/-- Embeds the /transactions/date_range endpoint
(finance_tracker_api.py): both parameters must be present (and, per
Python truthiness, non-empty), else a 400 error; otherwise SELECT with
date BETWEEN start AND end, an inclusive filter under the bytewise
string order (Lean's lexicographic String order, which agrees on
ASCII). -/
def get_transactions_by_date_range (start_date end_date : Option String) (s : Store) : Resp :=
  if !pyTruthy start_date || !pyTruthy end_date then
    .err 400 "Both start_date and end_date are required"
  else
    .ok (s.rows.filter (fun t =>
      decide (start_date.getD "" ≤ t.date) && decide (t.date ≤ end_date.getD "")))

/-- Embeds the /transactions/category endpoint: required parameter,
then an exact-equality filter on category. -/
def get_transactions_by_category (category : Option String) (s : Store) : Resp :=
  if !pyTruthy category then .err 400 "category parameter is required"
  else .ok (s.rows.filter (fun t => t.category == category.getD ""))

/-- Embeds the /transactions/above_amount endpoint: the parameter is
read with type=float, so an absent or unparsable value becomes None;
the guard (if not min_amount) also treats the float 0.0 as missing;
otherwise a strict amount > min_amount filter. -/
def get_transactions_above_amount (min_amount : Option String) (s : Store) : Resp :=
  match min_amount.bind pyFloat with
  | none => .err 400 "min_amount parameter is required"
  | some m =>
      if m = 0 then .err 400 "min_amount parameter is required"
      else .ok (s.rows.filter (fun t => decide (m < t.amount)))

/-- ASCII case folding used by SQLite's LIKE: upper-case ASCII letters
compare equal to their lower-case forms; all other characters are left
unchanged. -/
def asciiFold (c : Char) : Char :=
  if 'A' ≤ c && c ≤ 'Z' then Char.ofNat (c.toNat + 32) else c

/-- Embeds SQLite's LIKE pattern match (no ESCAPE clause): percent
matches any sequence of characters, underscore matches exactly one
character, and any other pattern character matches a text character
equal to it up to ASCII case folding. -/
def likeMatch : List Char → List Char → Bool
  | [], t => t.isEmpty
  | c :: ps, t =>
      if c = '%' then
        likeMatch ps t ||
          (match t with
           | [] => false
           | _ :: ts => likeMatch (c :: ps) ts)
      else
        match t with
        | [] => false
        | d :: ts => (c == '_' || asciiFold c == asciiFold d) && likeMatch ps ts
termination_by p t => (p.length, t.length)

/-- Embeds the /transactions/keyword endpoint: required parameter, then
SELECT with description LIKE the keyword wrapped in percent signs. -/
def get_transactions_by_keyword (keyword : Option String) (s : Store) : Resp :=
  if !pyTruthy keyword then .err 400 "keyword parameter is required"
  else
    .ok (s.rows.filter (fun t =>
      likeMatch ('%' :: (keyword.getD "").data ++ ['%']) t.descr.data))

/-- Modelled from the claim's words for comparison with the source
behaviour: literal, character-for-character substring containment of
the keyword in the description. -/
def literalSubstr (needle hay : String) : Bool :=
  hay.data.tails.any (fun t => needle.data.isPrefixOf t)

/-- Substring containment up to ASCII case folding: what the LIKE
filter computes for keywords free of wildcard characters. -/
def foldedSubstr (needle hay : String) : Bool :=
  (hay.data.map asciiFold).tails.any (fun t => (needle.data.map asciiFold).isPrefixOf t)

/-- Keywords containing no LIKE wildcard character. -/
def noWildcards (p : List Char) : Bool :=
  p.all (fun c => !(c == '%') && !(c == '_'))

/-- Whitespace accepted by SQLite's date parser around and after the
date value. -/
def sqlSpace (c : Char) : Bool :=
  c = ' ' || c = '\t' || c = '\n' || c = '\r' || c = '\x0b' || c = '\x0c'

/-- Embeds strftime applied with format %Y-%m to a stored date value
(finance_tracker_api.py, monthly summary query).  SQLite parses the
text as YYYY-MM-DD: four digits, dash, two digits (month 01 to 12),
dash, two digits (day 01 to 31); %Y-%m then reformats the parsed year
and month fields without calendar normalization, which for such strings
is exactly their first seven characters.  A value that does not parse
(wrong shape, month 00 or above 12, day 00 or above 31) yields NULL
(none).  Trailing whitespace is accepted; negative years and
time-of-day suffixes are outside the model. -/
def strftimeYM (d : String) : Option String :=
  match d.data with
  | y1 :: y2 :: y3 :: y4 :: '-' :: m1 :: m2 :: '-' :: d1 :: d2 :: rest =>
      if y1.isDigit && y2.isDigit && y3.isDigit && y4.isDigit &&
          m1.isDigit && m2.isDigit && d1.isDigit && d2.isDigit &&
          decide (1 ≤ digitsVal [m1, m2]) && decide (digitsVal [m1, m2] ≤ 12) &&
          decide (1 ≤ digitsVal [d1, d2]) && decide (digitsVal [d1, d2] ≤ 31) &&
          rest.all sqlSpace then
        some ⟨[y1, y2, y3, y4, '-', m1, m2]⟩
      else none
  | _ => none

/-- Month key of a stored row: strftime %Y-%m of its date, NULL when
the date does not parse. -/
def monthKey (t : Txn) : Option String := strftimeYM t.date

/-- Order in which SQLite returns the GROUP BY month buckets: the NULL
bucket first, then month strings in ascending (bytewise) order. -/
def keyLe : Option String → Option String → Bool
  | none, _ => true
  | some _, none => false
  | some a, some b => decide (a ≤ b)

/-- Propositional form of the bucket order, for the sorting lemmas. -/
def keyRel (a b : Option String) : Prop := keyLe a b = true

instance : DecidableRel keyRel := fun a b => instDecidableEqBool (keyLe a b) true

instance : IsTotal (Option String) keyRel := by
  constructor
  intro a b
  cases a <;> cases b <;> simp [keyRel, keyLe]
  exact le_total _ _

instance : IsTrans (Option String) keyRel := by
  constructor
  intro a b c hab hbc
  cases a <;> cases b <;> cases c <;> simp_all [keyRel, keyLe]
  exact le_trans hab hbc

/-- Embeds the monthly summary query (finance_tracker_api.py): SELECT
strftime %Y-%m AS month, SUM(amount) FROM transactions GROUP BY month.
Rows are bucketed by their month key (equal keys and the NULLs group
together) and each bucket reports the sum of its amounts; buckets come
back in ascending key order with the NULL bucket first. -/
def get_monthly_spending_summary (s : Store) : List (Option String × ℚ) :=
  (List.insertionSort keyRel ((s.rows.map monthKey).dedup)).map
    (fun k => (k, ((s.rows.filter (fun t => decide (monthKey t = k))).map Txn.amount).sum))

lemma insertAll_none_iff (rs : List CsvRow) (ok : CsvRow → Bool) :
    ∀ n, (insertAll rs ok n = none ↔ ∃ r ∈ rs, ok r = false) := by
  induction rs with
  | nil => intro n; simp [insertAll]
  | cons r rs ih =>
      intro n
      by_cases hok : ok r = true
      · simp [insertAll, hok, Option.map_eq_none', ih (n + 1),
          List.exists_mem_cons_iff]
      · have hok' : ok r = false := by simpa using hok
        simp [insertAll, hok', List.exists_mem_cons_iff]

lemma insertAll_all_ok (rs : List CsvRow) (ok : CsvRow → Bool) :
    ∀ n, (∀ r ∈ rs, ok r = true) → insertAll rs ok n = some (txnsFrom rs n) := by
  induction rs with
  | nil => intro n _; simp [insertAll, txnsFrom]
  | cons r rs ih =>
      intro n h
      simp [insertAll, h r (List.mem_cons_self r rs), txnsFrom,
        ih (n + 1) (fun x hx => h x (List.mem_cons_of_mem _ hx))]

lemma txnsFrom_length (rs : List CsvRow) : ∀ n, (txnsFrom rs n).length = rs.length := by
  induction rs with
  | nil => intro n; simp [txnsFrom]
  | cons r rs ih => intro n; simp [txnsFrom, ih (n + 1)]

lemma mem_txnsFrom (r : CsvRow) (rs : List CsvRow) (h : r ∈ rs) :
    ∀ n, ∃ i, rowTxn i r ∈ txnsFrom rs n := by
  induction rs with
  | nil => cases h
  | cons a rs ih =>
      intro n
      rcases List.mem_cons.mp h with h1 | h2
      · exact ⟨n, by simp [txnsFrom, h1]⟩
      · obtain ⟨i, hi⟩ := ih h2 (n + 1)
        exact ⟨i, by simp [txnsFrom, hi]⟩

/-- C1.  For every prior store state, after init_db completes
successfully the transactions table exists and holds zero records:
listTransactions right after initialization returns the empty sequence
and every record stored before the call is gone. -/
theorem C1_init_db_resets_store (s : Store) (t : Txn) :
    listTransactions (init_db s) = [] ∧ t ∉ listTransactions (init_db s) :=
  ⟨rfl, by simp [listTransactions, init_db]⟩

/-- Witness for C1: initializing over a store that already holds a
record leaves an empty listing without that record. -/
theorem C1_init_db_resets_store_witness :
    listTransactions (init_db ⟨[⟨1, "2024-05-01", "Food", 5, "x"⟩], 2⟩) = [] ∧
    (⟨1, "2024-05-01", "Food", 5, "x"⟩ : Txn) ∉
      listTransactions (init_db ⟨[⟨1, "2024-05-01", "Food", 5, "x"⟩], 2⟩) :=
  C1_init_db_resets_store ⟨[⟨1, "2024-05-01", "Food", 5, "x"⟩], 2⟩
    ⟨1, "2024-05-01", "Food", 5, "x"⟩

/-- C2.  For every input: when the date fails validation,
add_transaction aborts with the invalid-date message and the store is
unchanged; when the date passes but the amount fails validation, it
aborts with the invalid-amount message and the store is unchanged; when
both pass, exactly one new record with those field values (the amount
parsed as a number) is appended, carrying the store-assigned id. -/
theorem C2_add_transaction_validated (date category amount descr : String) (s : Store) :
    (validate_date date = false →
      add_transaction date category amount descr s = (s, .invalidDate)) ∧
    (validate_amount amount = false → validate_date date = true →
      add_transaction date category amount descr s = (s, .invalidAmount)) ∧
    (validate_date date = true → validate_amount amount = true →
      add_transaction date category amount descr s =
        (⟨s.rows ++ [⟨s.seq, date, category, (pyFloat amount).getD 0, descr⟩], s.seq + 1⟩,
          .added)) := by
  refine ⟨fun h => ?_, fun ha hd => ?_, fun hd ha => ?_⟩
  · simp [add_transaction, h]
  · simp [add_transaction, hd, ha]
  · simp [add_transaction, hd, ha, insertTxn]

/-- Witness for C2 at concrete inputs: a malformed date aborts, a
negative amount aborts, and the valid triple from the spec's test
appends exactly one Transportation record with amount 40.33. -/
theorem C2_add_transaction_validated_witness :
    add_transaction "2024-5-1" "Food" "10" "" ⟨[], 1⟩ = (⟨[], 1⟩, .invalidDate) ∧
    add_transaction "2024-05-01" "Food" "-50" "" ⟨[], 1⟩ = (⟨[], 1⟩, .invalidAmount) ∧
    add_transaction "2024-05-01" "Transportation" "40.33" "x" ⟨[], 1⟩ =
      (⟨[⟨1, "2024-05-01", "Transportation", (pyFloat "40.33").getD 0, "x"⟩], 2⟩, .added) :=
  ⟨(C2_add_transaction_validated "2024-5-1" "Food" "10" "" ⟨[], 1⟩).1 rfl,
   (C2_add_transaction_validated "2024-05-01" "Food" "-50" "" ⟨[], 1⟩).2.1
     (by with_unfolding_all rfl) rfl,
   (C2_add_transaction_validated "2024-05-01" "Transportation" "40.33" "x" ⟨[], 1⟩).2.2
     rfl (by with_unfolding_all rfl)⟩

/-- C3.  A CSV whose header lacks any of the columns date, category,
amount, description is rejected whole before any write — the store is
returned unchanged with the invalid-CSV message — while a header
containing all four (in any order, extra columns ignored) passes the
gate and the import proceeds. -/
theorem C3_upload_csv_column_check (csv : Csv) (ok : CsvRow → Bool) (s : Store) :
    (hasRequiredColumns csv.header = false → upload_csv csv ok s = (s, .missingCols)) ∧
    (hasRequiredColumns csv.header = true → (upload_csv csv ok s).2 ≠ .missingCols) := by
  constructor
  · intro h; simp [upload_csv, h]
  · intro h
    simp only [upload_csv, h, Bool.not_true, Bool.false_eq_true, if_false]
    cases insertAll csv.rows ok s.seq <;> simp

/-- Witness for C3: a header missing the amount column is rejected with
zero rows inserted, and a scrambled header with an extra column
proceeds past the gate. -/
theorem C3_upload_csv_column_check_witness :
    upload_csv ⟨["date", "category", "description"], [⟨"2024-01-01", "Food", 5, "x"⟩]⟩
        (fun _ => true) ⟨[], 1⟩ = (⟨[], 1⟩, .missingCols) ∧
    (upload_csv ⟨["notes", "description", "amount", "date", "category"],
        [⟨"2024-01-01", "Food", 5, "x"⟩]⟩ (fun _ => true) ⟨[], 1⟩).2 ≠ .missingCols :=
  ⟨(C3_upload_csv_column_check ⟨["date", "category", "description"],
      [⟨"2024-01-01", "Food", 5, "x"⟩]⟩ (fun _ => true) ⟨[], 1⟩).1 rfl,
   (C3_upload_csv_column_check ⟨["notes", "description", "amount", "date", "category"],
      [⟨"2024-01-01", "Food", 5, "x"⟩]⟩ (fun _ => true) ⟨[], 1⟩).2 rfl⟩

/-- C4.  When the header has the four required columns and the database
accepts the inserts, upload_csv inserts one record per data row and
applies neither validate_date nor validate_amount: a row whose date
fails the date pattern, or whose amount is zero or negative, is still
inserted with its fields unchanged. -/
theorem C4_upload_csv_no_row_validation (csv : Csv) (s : Store) (r : CsvRow)
    (hcols : hasRequiredColumns csv.header = true) :
    (upload_csv csv (fun _ => true) s).1.rows.length = s.rows.length + csv.rows.length ∧
    (r ∈ csv.rows → validate_date r.date = false ∨ r.amount ≤ 0 →
      ∃ i, rowTxn i r ∈ (upload_csv csv (fun _ => true) s).1.rows) := by
  have hall : insertAll csv.rows (fun _ => true) s.seq = some (txnsFrom csv.rows s.seq) :=
    insertAll_all_ok csv.rows (fun _ => true) s.seq (fun _ _ => rfl)
  constructor
  · simp [upload_csv, hcols, hall, txnsFrom_length]
  · intro hr _
    obtain ⟨i, hi⟩ := mem_txnsFrom r csv.rows hr s.seq
    refine ⟨i, ?_⟩
    simp [upload_csv, hcols, hall, hi]

/-- Witness for C4: a row with a non-date date and a negative amount is
inserted as-is once the columns are present. -/
theorem C4_upload_csv_no_row_validation_witness :
    (upload_csv ⟨["date", "category", "amount", "description"],
        [⟨"not-a-date", "Food", -5, "bad"⟩]⟩ (fun _ => true) ⟨[], 1⟩).1.rows.length = 1 ∧
    ∃ i, rowTxn i ⟨"not-a-date", "Food", -5, "bad"⟩ ∈
      (upload_csv ⟨["date", "category", "amount", "description"],
        [⟨"not-a-date", "Food", -5, "bad"⟩]⟩ (fun _ => true) ⟨[], 1⟩).1.rows :=
  ⟨(C4_upload_csv_no_row_validation ⟨["date", "category", "amount", "description"],
      [⟨"not-a-date", "Food", -5, "bad"⟩]⟩ ⟨[], 1⟩ ⟨"not-a-date", "Food", -5, "bad"⟩ rfl).1,
   (C4_upload_csv_no_row_validation ⟨["date", "category", "amount", "description"],
      [⟨"not-a-date", "Food", -5, "bad"⟩]⟩ ⟨[], 1⟩ ⟨"not-a-date", "Food", -5, "bad"⟩ rfl).2
     (by simp) (Or.inl rfl)⟩

/-- C9.  CSV import is all-or-nothing at the storage level: once the
column check passes, if the database refuses any row's INSERT the
single transaction is never committed and the store keeps exactly its
prior contents; the rows become visible only when every row of the file
inserts successfully, in which case all of them are appended at once. -/
theorem C9_csv_all_or_nothing (csv : Csv) (ok : CsvRow → Bool) (s : Store)
    (hcols : hasRequiredColumns csv.header = true) :
    ((∃ r ∈ csv.rows, ok r = false) → upload_csv csv ok s = (s, .insertError)) ∧
    ((∀ r ∈ csv.rows, ok r = true) →
      upload_csv csv ok s =
        (⟨s.rows ++ txnsFrom csv.rows s.seq, s.seq + csv.rows.length⟩, .success)) := by
  constructor
  · intro h
    have hnone : insertAll csv.rows ok s.seq = none :=
      (insertAll_none_iff csv.rows ok s.seq).mpr h
    simp [upload_csv, hcols, hnone]
  · intro h
    simp [upload_csv, hcols, insertAll_all_ok csv.rows ok s.seq h]

/-- Witness for C9: with a two-row file, a database failure on the
second row leaves the store untouched, while an error-free run appends
both rows. -/
theorem C9_csv_all_or_nothing_witness :
    upload_csv ⟨["date", "category", "amount", "description"],
        [⟨"2024-01-01", "Food", 5, "ok"⟩, ⟨"2024-01-02", "Rent", 7, "boom"⟩]⟩
      (fun r => !(r.descr == "boom")) ⟨[], 1⟩ = (⟨[], 1⟩, .insertError) ∧
    upload_csv ⟨["date", "category", "amount", "description"],
        [⟨"2024-01-01", "Food", 5, "ok"⟩, ⟨"2024-01-02", "Rent", 7, "boom"⟩]⟩
      (fun _ => true) ⟨[], 1⟩ =
      (⟨txnsFrom [⟨"2024-01-01", "Food", 5, "ok"⟩, ⟨"2024-01-02", "Rent", 7, "boom"⟩] 1, 3⟩,
        .success) :=
  ⟨(C9_csv_all_or_nothing ⟨["date", "category", "amount", "description"],
      [⟨"2024-01-01", "Food", 5, "ok"⟩, ⟨"2024-01-02", "Rent", 7, "boom"⟩]⟩
      (fun r => !(r.descr == "boom")) ⟨[], 1⟩ rfl).1
     ⟨⟨"2024-01-02", "Rent", 7, "boom"⟩, by simp, rfl⟩,
   (C9_csv_all_or_nothing ⟨["date", "category", "amount", "description"],
      [⟨"2024-01-01", "Food", 5, "ok"⟩, ⟨"2024-01-02", "Rent", 7, "boom"⟩]⟩
      (fun _ => true) ⟨[], 1⟩ rfl).2 (fun _ _ => rfl)⟩

/-- C6 counterexample.  The claim as stated fails at the numeric value
zero: with a store holding one record of amount 5 and min_amount
supplied as 0, the endpoint answers the 400 error — not the claimed set
of records with amount strictly greater than 0, which here is the whole
(non-empty) store. -/
theorem C6_counterexample :
    get_transactions_above_amount (some "0")
        ⟨[⟨1, "2024-05-01", "Food", 5, "x"⟩], 2⟩ =
      .err 400 "min_amount parameter is required" ∧
    List.filter (fun (t : Txn) => decide ((0 : ℚ) < t.amount))
        [⟨1, "2024-05-01", "Food", 5, "x"⟩] = [⟨1, "2024-05-01", "Food", 5, "x"⟩] :=
  ⟨by with_unfolding_all rfl, by with_unfolding_all rfl⟩

/-- C6 amended.  For every request supplying a numeric, non-zero
min_amount, the response is exactly the stored records whose amount is
strictly greater than min_amount (equal amounts excluded); a supplied
value of 0 is treated like a missing parameter. -/
theorem C6_above_amount_strict (s : Store) (p : String) (m : ℚ)
    (h1 : pyFloat p = some m) (h2 : m ≠ 0) :
    get_transactions_above_amount (some p) s =
      .ok (s.rows.filter (fun t => decide (m < t.amount))) := by
  simp [get_transactions_above_amount, Option.bind, h1, h2]

/-- Witness for the amended C6: min_amount 100 over a two-record store
keeps exactly the record with amount above 100. -/
theorem C6_above_amount_strict_witness :
    get_transactions_above_amount (some "100")
        ⟨[⟨1, "2024-05-01", "Food", 100, "x"⟩, ⟨2, "2024-05-02", "Rent", 101, "y"⟩], 3⟩ =
      .ok (List.filter (fun (t : Txn) => decide ((100 : ℚ) < t.amount))
        [⟨1, "2024-05-01", "Food", 100, "x"⟩, ⟨2, "2024-05-02", "Rent", 101, "y"⟩]) :=
  C6_above_amount_strict
    ⟨[⟨1, "2024-05-01", "Food", 100, "x"⟩, ⟨2, "2024-05-02", "Rent", 101, "y"⟩], 3⟩
    "100" 100 (by with_unfolding_all rfl) (by norm_num)

/-- C8.  For every endpoint with a required query parameter, a request
in which that parameter is absent gets the 400 error response with an
error message, independent of the store — no query runs and no partial
result is returned: date_range with either bound missing, category,
above_amount and keyword all answer their error object. -/
theorem C8_missing_params_rejected (s : Store) (sd ed : Option String) :
    get_transactions_by_date_range none ed s =
      .err 400 "Both start_date and end_date are required" ∧
    get_transactions_by_date_range sd none s =
      .err 400 "Both start_date and end_date are required" ∧
    get_transactions_by_category none s = .err 400 "category parameter is required" ∧
    get_transactions_above_amount none s = .err 400 "min_amount parameter is required" ∧
    get_transactions_by_keyword none s = .err 400 "keyword parameter is required" := by
  refine ⟨rfl, ?_, rfl, rfl, rfl⟩
  cases h : pyTruthy sd <;> simp [get_transactions_by_date_range, h, pyTruthy]

/-- C10.  A request to /transactions/above_amount whose min_amount is
supplied but equals 0 or does not parse as a float gets exactly the
same 400 error response as a request with the parameter missing —
never a filtered or failing query result. -/
theorem C10_min_amount_falsy (s : Store) (p : String)
    (h : pyFloat p = none ∨ pyFloat p = some 0) :
    get_transactions_above_amount (some p) s = get_transactions_above_amount none s ∧
    get_transactions_above_amount (some p) s =
      .err 400 "min_amount parameter is required" := by
  rcases h with h | h <;>
    simp [get_transactions_above_amount, Option.bind, h]

/-- Witness for C10 at the concrete values 0 and a non-numeric string:
both behave exactly like the missing parameter. -/
theorem C10_min_amount_falsy_witness :
    (get_transactions_above_amount (some "0") ⟨[⟨1, "2024-05-01", "Food", 5, "x"⟩], 2⟩ =
        get_transactions_above_amount none ⟨[⟨1, "2024-05-01", "Food", 5, "x"⟩], 2⟩ ∧
      get_transactions_above_amount (some "0") ⟨[⟨1, "2024-05-01", "Food", 5, "x"⟩], 2⟩ =
        .err 400 "min_amount parameter is required") ∧
    (get_transactions_above_amount (some "abc") ⟨[⟨1, "2024-05-01", "Food", 5, "x"⟩], 2⟩ =
        get_transactions_above_amount none ⟨[⟨1, "2024-05-01", "Food", 5, "x"⟩], 2⟩ ∧
      get_transactions_above_amount (some "abc") ⟨[⟨1, "2024-05-01", "Food", 5, "x"⟩], 2⟩ =
        .err 400 "min_amount parameter is required") :=
  ⟨C10_min_amount_falsy ⟨[⟨1, "2024-05-01", "Food", 5, "x"⟩], 2⟩ "0"
     (Or.inr (by with_unfolding_all rfl)),
   C10_min_amount_falsy ⟨[⟨1, "2024-05-01", "Food", 5, "x"⟩], 2⟩ "abc" (Or.inl rfl)⟩

lemma likeMatch_percent (ps t : List Char) :
    likeMatch ('%' :: ps) t =
      (likeMatch ps t ||
        match t with
        | [] => false
        | _ :: ts => likeMatch ('%' :: ps) ts) := by
  cases t <;> simp [likeMatch]

lemma likeMatch_percent_nil (t : List Char) : likeMatch ['%'] t = true := by
  induction t with
  | nil => simp [likeMatch]
  | cons a ts ih => rw [likeMatch_percent]; simp [likeMatch, ih]

lemma likeMatch_lit_cons (c : Char) (hc : ¬ c = '%') (ps t : List Char) :
    likeMatch (c :: ps) t =
      (match t with
       | [] => false
       | d :: ts => (c == '_' || asciiFold c == asciiFold d) && likeMatch ps ts) := by
  cases t <;> simp [likeMatch, hc]

lemma likeMatch_append_percent (p : List Char) (hp : noWildcards p = true) :
    ∀ t, likeMatch (p ++ ['%']) t = (p.map asciiFold).isPrefixOf (t.map asciiFold) := by
  induction p with
  | nil =>
      intro t
      simp [likeMatch_percent_nil, List.isPrefixOf]
  | cons c p ih =>
      simp only [noWildcards, List.all_cons, Bool.and_eq_true, Bool.not_eq_true',
        beq_eq_false_iff_ne, ne_eq] at hp
      obtain ⟨⟨hc1, hc2⟩, hp'⟩ := hp
      have hp'' : noWildcards p = true := hp'
      intro t
      rw [List.cons_append, likeMatch_lit_cons c hc1]
      cases t with
      | nil => simp [List.isPrefixOf]
      | cons d ts =>
          have hb : (c == '_') = false := beq_eq_false_iff_ne.mpr hc2
          simp [List.isPrefixOf, hb, ih hp'' ts]

lemma likeMatch_leading_percent (q : List Char) :
    ∀ t, likeMatch ('%' :: q) t = t.tails.any (fun u => likeMatch q u) := by
  intro t
  induction t with
  | nil => rw [likeMatch_percent]; simp
  | cons a ts ih => rw [likeMatch_percent]; simp [List.tails_cons, ih]

lemma likeMatch_substr (k d : List Char) (hk : noWildcards k = true) :
    likeMatch ('%' :: k ++ ['%']) d =
      (d.map asciiFold).tails.any (fun u => (k.map asciiFold).isPrefixOf u) := by
  rw [List.cons_append, likeMatch_leading_percent (k ++ ['%']) d, List.map_tails,
    List.any_map]
  have he : (fun u => likeMatch (k ++ ['%']) u) =
      (fun u : List Char => (k.map asciiFold).isPrefixOf (u.map asciiFold)) :=
    funext (fun u => likeMatch_append_percent k hk u)
  rw [he]
  rfl

/-- C7 counterexample.  The keyword filter is not a literal
character-for-character substring match: the keyword groceries selects
a record whose description contains only the capitalized Groceries
(SQLite LIKE folds ASCII case), and the keyword with an underscore
selects a record it does not literally occur in (underscore is a
single-character wildcard). -/
theorem C7_counterexample :
    get_transactions_by_keyword (some "groceries")
        ⟨[⟨1, "2024-05-01", "Food", 12, "Groceries run"⟩], 2⟩ =
      .ok [⟨1, "2024-05-01", "Food", 12, "Groceries run"⟩] ∧
    literalSubstr "groceries" "Groceries run" = false ∧
    get_transactions_by_keyword (some "a_c")
        ⟨[⟨1, "2024-05-01", "Food", 12, "abc"⟩], 2⟩ =
      .ok [⟨1, "2024-05-01", "Food", 12, "abc"⟩] ∧
    literalSubstr "a_c" "abc" = false :=
  ⟨by with_unfolding_all rfl, rfl, by with_unfolding_all rfl, rfl⟩

/-- C7 amended.  For every request supplying a non-empty keyword free
of the LIKE wildcard characters percent and underscore, the response is
exactly the stored records whose description contains the keyword as a
substring up to ASCII case folding; keywords containing percent or
underscore are instead interpreted with those wildcard meanings. -/
theorem C7_keyword_folded_substring (s : Store) (k : String)
    (h1 : ¬ k = "") (h2 : noWildcards k.data = true) :
    get_transactions_by_keyword (some k) s =
      .ok (s.rows.filter (fun t => foldedSubstr k t.descr)) := by
  have hg : pyTruthy (some k) = true := by
    simp [pyTruthy, h1]
  simp only [get_transactions_by_keyword, hg, Bool.not_true, Bool.false_eq_true,
    if_false, Option.getD_some, Resp.ok.injEq]
  apply List.filter_congr
  intro t _
  rw [likeMatch_substr k.data t.descr.data h2]
  rfl

/-- Witness for the amended C7: the keyword groceries, wildcard-free,
retrieves exactly the records whose folded description contains it. -/
theorem C7_keyword_folded_substring_witness :
    get_transactions_by_keyword (some "groceries")
        ⟨[⟨1, "2024-05-01", "Food", 12, "Groceries run"⟩,
          ⟨2, "2024-05-02", "Rent", 9, "monthly rent"⟩], 3⟩ =
      .ok (List.filter (fun (t : Txn) => foldedSubstr "groceries" t.descr)
        [⟨1, "2024-05-01", "Food", 12, "Groceries run"⟩,
         ⟨2, "2024-05-02", "Rent", 9, "monthly rent"⟩]) :=
  C7_keyword_folded_substring
    ⟨[⟨1, "2024-05-01", "Food", 12, "Groceries run"⟩,
      ⟨2, "2024-05-02", "Rent", 9, "monthly rent"⟩], 3⟩
    "groceries" (by decide) rfl

lemma strftimeYM_firstSeven (d m : String) (h : strftimeYM d = some m) :
    m = (⟨d.data.take 7⟩ : String) := by
  unfold strftimeYM at h
  split at h
  · rename_i y1 y2 y3 y4 m1 m2 d1 d2 rest heq
    split at h
    · rw [heq]
      simp only [List.take] at h ⊢
      exact (Option.some.injEq _ _ ▸ h.symm ▸ rfl)
    · exact absurd h (by simp)
  · exact absurd h (by simp)

/-- C5 counterexample.  Bucketing is not by the first seven characters
of the date string: a store holding one record dated 2024-13-01 (which
manual entry accepts — the validator checks digits only) is summarized
into the single NULL bucket, because strftime fails on month 13, while
the first seven characters of that date are 2024-13. -/
theorem C5_counterexample :
    get_monthly_spending_summary ⟨[⟨1, "2024-13-01", "Misc", 5, ""⟩], 2⟩ =
      [(none, 5)] ∧
    (⟨("2024-13-01".data.take 7)⟩ : String) = "2024-13" ∧
    validate_date "2024-13-01" = true :=
  ⟨by with_unfolding_all rfl, rfl, rfl⟩

/-- C5 amended.  The monthly summary groups records by strftime %Y-%m
of their date: whenever that key is non-NULL it equals the first seven
characters of the date string, records whose date fails SQLite's date
parse (such as month 13) land together in a single NULL bucket, each
bucket's total is the sum of the amounts of exactly the records with
that key, buckets are ordered ascending by key (NULL first), and the
dates 2024-05-01 and 2024-05-31 share the bucket 2024-05. -/
theorem C5_monthly_summary_grouping (s : Store) (d m : String) (t : Txn) :
    (strftimeYM d = some m → m = (⟨d.data.take 7⟩ : String)) ∧
    List.Sorted keyRel ((get_monthly_spending_summary s).map Prod.fst) ∧
    (∀ p ∈ get_monthly_spending_summary s,
      p.2 = ((s.rows.filter (fun x => decide (monthKey x = p.1))).map Txn.amount).sum) ∧
    (t ∈ s.rows → ∃ p ∈ get_monthly_spending_summary s, p.1 = monthKey t) ∧
    strftimeYM "2024-05-01" = some "2024-05" ∧
    strftimeYM "2024-05-31" = some "2024-05" := by
  refine ⟨strftimeYM_firstSeven d m, ?_, ?_, ?_, rfl, rfl⟩
  · have hm : (get_monthly_spending_summary s).map Prod.fst =
        List.insertionSort keyRel ((s.rows.map monthKey).dedup) := by
      simp only [get_monthly_spending_summary, List.map_map]
      have hid : (Prod.fst ∘ fun k : Option String =>
          (k, ((s.rows.filter (fun x => decide (monthKey x = k))).map Txn.amount).sum)) =
          id := rfl
      rw [hid, List.map_id]
    rw [hm]
    exact List.sorted_insertionSort keyRel _
  · intro p hp
    simp only [get_monthly_spending_summary, List.mem_map] at hp
    obtain ⟨k, _, rfl⟩ := hp
    rfl
  · intro ht
    have hk : monthKey t ∈ (s.rows.map monthKey).dedup :=
      List.mem_dedup.mpr (List.mem_map_of_mem monthKey ht)
    have hk2 : monthKey t ∈ List.insertionSort keyRel ((s.rows.map monthKey).dedup) :=
      ((List.perm_insertionSort keyRel _).mem_iff).mpr hk
    exact ⟨_, List.mem_map_of_mem
      (fun k => (k, ((s.rows.filter (fun x => decide (monthKey x = k))).map Txn.amount).sum))
      hk2, rfl⟩

/-- Witness for the amended C5 on a one-record store dated 2024-05-31:
its non-NULL key is the seven-character prefix, its bucket total is the
filtered sum, and its key appears in the summary. -/
theorem C5_monthly_summary_grouping_witness :
    ("2024-05" : String) = (⟨"2024-05-31".data.take 7⟩ : String) ∧
    ((some "2024-05", (5 : ℚ)) :  Option String × ℚ).2 =
      (((⟨[⟨1, "2024-05-31", "Food", 5, "x"⟩], 2⟩ : Store).rows.filter
          (fun x => decide (monthKey x = ((some "2024-05", (5 : ℚ)) : Option String × ℚ).1))).map
        Txn.amount).sum ∧
    (∃ p ∈ get_monthly_spending_summary ⟨[⟨1, "2024-05-31", "Food", 5, "x"⟩], 2⟩,
      p.1 = monthKey ⟨1, "2024-05-31", "Food", 5, "x"⟩) :=
  ⟨(C5_monthly_summary_grouping ⟨[⟨1, "2024-05-31", "Food", 5, "x"⟩], 2⟩ "2024-05-31"
      "2024-05" ⟨1, "2024-05-31", "Food", 5, "x"⟩).1 rfl,
   (C5_monthly_summary_grouping ⟨[⟨1, "2024-05-31", "Food", 5, "x"⟩], 2⟩ "2024-05-31"
      "2024-05" ⟨1, "2024-05-31", "Food", 5, "x"⟩).2.2.1 (some "2024-05", 5)
     (by rw [show get_monthly_spending_summary ⟨[⟨1, "2024-05-31", "Food", 5, "x"⟩], 2⟩ =
           [(some "2024-05", 5)] from by with_unfolding_all rfl]
         exact List.mem_singleton.mpr rfl),
   (C5_monthly_summary_grouping ⟨[⟨1, "2024-05-31", "Food", 5, "x"⟩], 2⟩ "2024-05-31"
      "2024-05" ⟨1, "2024-05-31", "Food", 5, "x"⟩).2.2.2.1 (by simp)⟩

end FinanceTracker
